import Mathlib

/-!
# Verification of the Logogen workflow (WisdomMotion)

Shallow embedding of the two source files of the repository:

* `src/types.ts` — the data model (`AppStep`, `LogoData`, `AnimationData`,
  `ImageSize`, `AspectRatio`) together with the media request client
  (`generateLogo`, `animateLogo` from `services/geminiService.ts`);
* `src/App.tsx` — the workflow controller: the wizard state
  (`step`, `logo`, `animation`, `isGenerating`, `error`, `imageSize`,
  `aspectRatio`, `progressMessage`), the handlers `checkApiKey`,
  `handleGenerateLogo`, `handleAnimate`, and the navigation buttons.

The external generative-media provider and the AI-Studio key collaborator
are modelled as oracle functions (request ↦ response-or-rejection); the
asynchronous poll of `animateLogo` is modelled with an explicit fuel
parameter so non-termination is observable as `Option.none`.  Each handler
additionally records an event trace (`Ev`) of the observable side effects
(busy flag writes, cosmetic ticker start/stop, credential-picker calls,
error writes) in the order the source performs them.
-/

namespace Logogen

/-- Enum `AppStep` from `src/types.ts`: the four wizard screens. -/
inductive AppStep where
  | Setup
  | Design
  | Animate
  | View
deriving DecidableEq, Repr

/-- Type `ImageSize` from `src/types.ts`: `'1K' | '2K' | '4K'`. -/
inductive ImageSize where
  | size1K
  | size2K
  | size4K
deriving DecidableEq, Repr

/-- Type `AspectRatio` from `src/types.ts`: `'1:1' | '16:9' | '9:16'`. -/
inductive AspectRatio where
  | ratio1x1
  | ratio16x9
  | ratio9x16
deriving DecidableEq, Repr

/-- Record `LogoData` from `src/types.ts`. -/
structure LogoData where
  url : String
  base64 : String
  mimeType : String
  prompt : String
deriving DecidableEq, Repr

/-- A fetched binary body, the result of `response.blob()`. -/
structure Blob where
  bytes : List Nat
deriving DecidableEq, Repr

/-- A playable local reference: `URL.createObjectURL(blob)` is opaque in the
source, so we model it as a constructor wrapping the blob it was created
from. -/
inductive PlayableRef where
  | objectURL (b : Blob)
deriving DecidableEq, Repr

/-- Record `AnimationData` from `src/types.ts` (`videoUrl` holds the object URL
returned by `animateLogo`). -/
structure AnimationData where
  videoUrl : PlayableRef
  prompt : String
deriving DecidableEq, Repr

/-! ## Media request client (`services/geminiService.ts`) -/

/-- Field `part.inlineData` of a generation response part: base64 `data` plus an
optional `mimeType`. -/
structure InlineData where
  data : String
  mimeType : Option String
deriving DecidableEq, Repr

/-- One element of `response.candidates[0].content.parts`. -/
structure ResponsePart where
  inlineData : Option InlineData
deriving DecidableEq, Repr

/-- The part of a `generateContent` response the source reads:
`response.candidates?.[0]?.content?.parts` (optional chaining — `none`
when any link of the chain is absent). -/
structure GenContentResponse where
  parts : Option (List ResponsePart)
deriving DecidableEq, Repr

/-- The image-generation request `generateLogo` builds: fixed model, the
user description wrapped in the fixed style preamble, fixed `1:1` aspect
ratio and the chosen quality tier. -/
structure GenRequest where
  model : String
  promptText : String
  aspectRatio : String
  imageSize : ImageSize
deriving DecidableEq, Repr

/-- Request construction inside `generateLogo`. -/
def mkImageRequest (prompt : String) (size : ImageSize) : GenRequest :=
  { model := "gemini-3-pro-image-preview"
    promptText := "A clean, professional, high-resolution logo design for: "
      ++ prompt
      ++ ". Minimalist, vector style, suitable for educational non-profits. White background."
    aspectRatio := "1:1"
    imageSize := size }

/-- The errors the media request client can settle with.  The source throws
plain `Error` values; the constructors record which `throw`/rejection site
produced the error and `GenError.message` below reproduces the exact
message string of each site. -/
inductive GenError where
  /-- A provider call (`generateContent`, `generateVideos` or a poll)
  rejected with message `m`. -/
  | providerError (m : String)
  /-- The site `throw new Error("No image data returned from model.")`. -/
  | noImageReturned
  /-- The site `throw new Error("Failed to get video download link.")`. -/
  | noVideoReturned
  /-- The `fetch`/`blob()` of the download link rejected with message `m`. -/
  | downloadFailed (m : String)
deriving DecidableEq, Repr

/-- The `err.message` string of each error. -/
def GenError.message : GenError → String
  | .providerError m => m
  | .noImageReturned => "No image data returned from model."
  | .noVideoReturned => "Failed to get video download link."
  | .downloadFailed m => m

/-- Result record of a successful `generateLogo`:
`{ url, base64, mimeType }`. -/
structure LogoResult where
  url : String
  base64 : String
  mimeType : String
deriving DecidableEq, Repr

/-- The `for (const part of parts) if (part.inlineData) return …` loop of
`generateLogo`: the first part carrying inline data, if any. -/
def findInline : List ResponsePart → Option InlineData
  | [] => none
  | p :: rest =>
    match p.inlineData with
    | some d => some d
    | none => findInline rest

/-- Function `generateLogo` from `services/geminiService.ts`.  `provider` is the
oracle for `ai.models.generateContent`: it either resolves with the
response shape the source reads, or rejects with a message. -/
def generateLogo (prompt : String) (size : ImageSize)
    (provider : GenRequest → Except String GenContentResponse) :
    Except GenError LogoResult :=
  match provider (mkImageRequest prompt size) with
  | .error m => .error (.providerError m)
  | .ok response =>
    match findInline (response.parts.getD []) with
    | some d =>
      let mimeType := d.mimeType.getD "image/png"
      .ok { url := "data:" ++ mimeType ++ ";base64," ++ d.data
            base64 := d.data
            mimeType := mimeType }
    | none => .error .noImageReturned

/-- Field `video?.uri` of one generated video. -/
structure VideoRef where
  uri : Option String
deriving DecidableEq, Repr

/-- One entry of `response.generatedVideos`. -/
structure GeneratedVideo where
  video : Option VideoRef
deriving DecidableEq, Repr

/-- Field `operation.response` once present: the optional `generatedVideos`
list. -/
structure OpResponse where
  generatedVideos : Option (List GeneratedVideo)
deriving DecidableEq, Repr

/-- The video operation handle the source polls: the `done` flag and the
optional response payload. -/
structure VideosOperation where
  done : Bool
  response : Option OpResponse
deriving DecidableEq, Repr

/-- Extraction `operation.response?.generatedVideos?.[0]?.video?.uri`. -/
def downloadLinkOf (op : VideosOperation) : Option String :=
  op.response.bind fun r =>
    r.generatedVideos.bind fun vs =>
      vs.head?.bind fun gv =>
        gv.video.bind fun v => v.uri

/-- The video-generation request `animateLogo` builds: fixed model, the
motion prompt, the seed image bytes and mime type, exactly one output at
fixed `720p` resolution and the chosen frame shape. -/
structure VideoRequest where
  model : String
  promptText : String
  imageBytes : String
  imageMimeType : String
  numberOfVideos : Nat
  resolution : String
  aspectRatio : AspectRatio
deriving DecidableEq, Repr

/-- The `image` argument of `animateLogo`: `{ base64, mimeType }`. -/
structure ImagePayload where
  base64 : String
  mimeType : String
deriving DecidableEq, Repr

/-- Request construction inside `animateLogo`. -/
def mkVideoRequest (image : ImagePayload) (animationPrompt : String)
    (aspectRatio : AspectRatio) : VideoRequest :=
  { model := "veo-3.1-fast-generate-preview"
    promptText := animationPrompt
    imageBytes := image.base64
    imageMimeType := image.mimeType
    numberOfVideos := 1
    resolution := "720p"
    aspectRatio := aspectRatio }

/-- The fixed sleep interval of the poll loop, in milliseconds:
`setTimeout(resolve, 10000)`. -/
def pollIntervalMs : Nat := 10000

/-- The `while (!operation.done)` poll loop of `animateLogo`, with fuel.
`poll i` is the outcome of the `i`-th `ai.operations.getVideosOperation`
call (resolution or rejection); `sleeps` accumulates the millisecond
duration of every sleep performed, in order.  `none` means the fuel ran
out with the loop still running — in the source the loop would simply
keep polling. -/
def pollLoopFuel : Nat → VideosOperation →
    (Nat → Except String VideosOperation) → Nat → List Nat →
    Option (Except String (VideosOperation × List Nat))
  | fuel, op, poll, i, sleeps =>
    if op.done then some (.ok (op, sleeps))
    else
      match fuel with
      | 0 => none
      | f + 1 =>
        match poll i with
        | .error m => some (.error m)
        | .ok op2 => pollLoopFuel f op2 poll (i + 1) (sleeps ++ [pollIntervalMs])

/-- The tail of `animateLogo` after the loop exits: extract the download
link, `fetch` it with the API key appended, and wrap the blob in an
object URL. -/
def finishAnimation (op : VideosOperation)
    (fetchUrl : String → Except String Blob) (apiKey : String) :
    Except GenError PlayableRef :=
  match downloadLinkOf op with
  | none => .error .noVideoReturned
  | some link =>
    match fetchUrl (link ++ "&key=" ++ apiKey) with
    | .error m => .error (.downloadFailed m)
    | .ok blob => .ok (.objectURL blob)

/-- The external collaborators `animateLogo` consumes:
`ai.models.generateVideos`, the poll oracle for
`ai.operations.getVideosOperation` (indexed by poll count), the
`fetch`+`blob()` step, and `process.env.API_KEY`. -/
structure AnimateEnv where
  startVideos : VideoRequest → Except String VideosOperation
  pollOp : Nat → Except String VideosOperation
  fetchUrl : String → Except String Blob
  apiKey : String

/-- Function `animateLogo` from `services/geminiService.ts`, with fuel bounding how
many poll iterations are unfolded: `none` means the poll loop had not
exited within `fuel` iterations (the source would still be polling). -/
def animateLogo (image : ImagePayload) (animationPrompt : String)
    (aspectRatio : AspectRatio) (env : AnimateEnv) (fuel : Nat) :
    Option (Except GenError PlayableRef) :=
  match env.startVideos (mkVideoRequest image animationPrompt aspectRatio) with
  | .error m => some (.error (.providerError m))
  | .ok op0 =>
    match pollLoopFuel fuel op0 env.pollOp 0 [] with
    | none => none
    | some (.error m) => some (.error (.providerError m))
    | some (.ok (op, _)) => some (finishAnimation op env.fetchUrl env.apiKey)

/-! ## Workflow controller (`src/App.tsx`) -/

/-- The React state of `App`, one field per `useState` hook. -/
structure WorkflowState where
  step : AppStep
  logo : Option LogoData
  animation : Option AnimationData
  isGenerating : Bool
  error : Option String
  imageSize : ImageSize
  aspectRatio : AspectRatio
  progressMessage : String
deriving DecidableEq, Repr

/-- The initial state of the component: the `useState` initialisers. -/
def initState : WorkflowState :=
  { step := .Setup
    logo := none
    animation := none
    isGenerating := false
    error := none
    imageSize := .size1K
    aspectRatio := .ratio16x9
    progressMessage := "" }

/-- Observable side effects of a handler run, recorded in source order:
busy-flag writes (`setIsGenerating`), error writes (`setError`), the
cosmetic ticker being started (`setInterval`, with its millisecond
interval) and stopped (`clearInterval`), and calls to the credential
picker (`window.aistudio.openSelectKey`). -/
inductive Ev where
  | setBusy (b : Bool)
  | setErr (msg : Option String)
  | startTicker (intervalMs : Nat)
  | stopTicker
  | openKey
deriving DecidableEq, Repr

/-- The `loadingMessages` list of `App`. -/
def loadingMessages : List String :=
  [ "Synthesizing visual concepts..."
  , "Perfecting geometric proportions..."
  , "Applying professional color palettes..."
  , "Polishing vector edges..."
  , "Optimizing for education and impact..."
  , "Adding that 'More Wisdom' touch..." ]

/-- The `animationMessages` list of `App`. -/
def animationMessages : List String :=
  [ "Infusing motion into the design..."
  , "Calculating fluid dynamics..."
  , "Rendering cinematic lighting..."
  , "Bringing your brand to life..."
  , "Finalizing visual storytelling..."
  , "Just a moment longer, greatness takes time..." ]

/-- The progress message after the cosmetic ticker has fired `ticks` times:
each firing sets `messages[msgIndex % messages.length]` and increments
`msgIndex` (which starts at 0), so after `k ≥ 1` firings the message is
`messages[(k-1) % len]`; with no firing the previous message stands. -/
def tickerMessage (messages : List String) (ticks : Nat) (prev : String) : String :=
  match ticks with
  | 0 => prev
  | k + 1 => messages.getD (k % messages.length) ""

/-- The error message `checkApiKey` sets in its `catch`. -/
def keyCheckFailMsg : String :=
  "Failed to verify API key selection. Please try again."

/-- Handler `checkApiKey` from `App`.  `hasKeyRes` is the outcome of
`window.aistudio.hasSelectedApiKey()` and `openRes` the outcome of
`window.aistudio.openSelectKey()` (only consulted when the first resolves
`false`).  A rejection of either lands in the `catch`, which sets the
error and leaves the step untouched. -/
def checkApiKey (s : WorkflowState) (hasKeyRes : Except String Bool)
    (openRes : Except String Unit) : WorkflowState × List Ev :=
  match hasKeyRes with
  | .ok true => ({ s with step := .Design }, [])
  | .ok false =>
    match openRes with
    | .ok _ => ({ s with step := .Design }, [.openKey])
    | .error _ =>
      ({ s with error := some keyCheckFailMsg }, [.openKey, .setErr (some keyCheckFailMsg)])
  | .error _ =>
    ({ s with error := some keyCheckFailMsg }, [.setErr (some keyCheckFailMsg)])

/-- Whether the `try` block of `checkApiKey` runs to completion: the key
check resolves, and when it resolves `false` the interactive selection
also resolves. -/
def keyCheckSucceeds (hasKeyRes : Except String Bool)
    (openRes : Except String Unit) : Bool :=
  match hasKeyRes with
  | .ok true => true
  | .ok false =>
    match openRes with
    | .ok _ => true
    | .error _ => false
  | .error _ => false

/-- The substring both handlers look for in a thrown error's message. -/
def entityNotFoundPattern : String := "Requested entity was not found"

/-- The access-recovery message both handlers set when the pattern
matches. -/
def accessRecoveryMsg : String :=
  "Your API key may not have access or has been reset. Please re-select."

/-- Whether `pat` is a prefix of `l`. -/
def charsStartWith : List Char → List Char → Bool
  | [], _ => true
  | _ :: _, [] => false
  | a :: as, b :: bs => a = b && charsStartWith as bs

/-- Whether `pat` occurs contiguously inside `l`. -/
def charsContain (pat : List Char) : List Char → Bool
  | [] => pat.isEmpty
  | b :: bs => charsStartWith pat (b :: bs) || charsContain pat bs

/-- The check `err.message?.includes(pattern)`. -/
def msgContains (msg pattern : String) : Bool :=
  charsContain pattern.data msg.data

/-- Handler `handleGenerateLogo` from `App`.  `provider` is the image-generation
oracle passed through to `generateLogo`; `ticks` is how many times the
cosmetic 3-second ticker fired before the call settled.  Returns the
component state after the handler finishes together with its event
trace. -/
def handleGenerateLogo (s : WorkflowState) (description : String)
    (provider : GenRequest → Except String GenContentResponse)
    (ticks : Nat) : WorkflowState × List Ev :=
  let s1 : WorkflowState :=
    { s with isGenerating := true
             error := none
             progressMessage := tickerMessage loadingMessages ticks s.progressMessage }
  let pre : List Ev := [.setBusy true, .setErr none, .startTicker 3000]
  match generateLogo description s.imageSize provider with
  | .ok result =>
    let s2 := { s1 with logo := some { url := result.url, base64 := result.base64,
                                       mimeType := result.mimeType, prompt := description }
                        step := .Design }
    ({ s2 with isGenerating := false }, pre ++ [.stopTicker, .setBusy false])
  | .error e =>
    let m := e.message
    if msgContains m entityNotFoundPattern then
      let s2 := { s1 with error := some accessRecoveryMsg }
      ({ s2 with isGenerating := false },
       pre ++ [.setErr (some accessRecoveryMsg), .openKey, .stopTicker, .setBusy false])
    else
      let msg := if m = "" then "Something went wrong while generating the logo." else m
      let s2 := { s1 with error := some msg }
      ({ s2 with isGenerating := false },
       pre ++ [.setErr (some msg), .stopTicker, .setBusy false])

/-- Handler `handleAnimate` from `App`.  Guarded by `if (!logo) return;` — with no
logo the handler returns at once with no state change and no events.
`env` is the animation oracle bundle, `fuel` bounds the poll loop as in
`animateLogo`, and `ticks` is how many times the 4-second ticker fired.
`none` means the poll loop never exited, so the handler never settled. -/
def handleAnimate (s : WorkflowState) (animPrompt : String)
    (env : AnimateEnv) (fuel : Nat) (ticks : Nat) :
    Option (WorkflowState × List Ev) :=
  match s.logo with
  | none => some (s, [])
  | some logo =>
    let s1 : WorkflowState :=
      { s with isGenerating := true
               error := none
               progressMessage := tickerMessage animationMessages ticks s.progressMessage }
    let pre : List Ev := [.setBusy true, .setErr none, .startTicker 4000]
    match animateLogo { base64 := logo.base64, mimeType := logo.mimeType }
        animPrompt s.aspectRatio env fuel with
    | none => none
    | some (.ok videoUrl) =>
      let s2 := { s1 with animation := some { videoUrl := videoUrl, prompt := animPrompt }
                          step := .View }
      some ({ s2 with isGenerating := false }, pre ++ [.stopTicker, .setBusy false])
    | some (.error e) =>
      let m := e.message
      if msgContains m entityNotFoundPattern then
        let s2 := { s1 with error := some accessRecoveryMsg }
        some ({ s2 with isGenerating := false },
              pre ++ [.setErr (some accessRecoveryMsg), .openKey, .stopTicker, .setBusy false])
      else
        let msg := if m = "" then "Failed to animate logo." else m
        let s2 := { s1 with error := some msg }
        some ({ s2 with isGenerating := false },
              pre ++ [.setErr (some msg), .stopTicker, .setBusy false])

/-! ### Navigation and option buttons -/

/-- The "Designer" nav-bar button: `setStep(AppStep.Design)`. -/
def navDesigner (s : WorkflowState) : WorkflowState :=
  { s with step := .Design }

/-- The "Animator" nav-bar button: `onClick={() => logo &&
setStep(AppStep.Animate)}` and `disabled={!logo}` — a no-op while the
logo is absent. -/
def navAnimator (s : WorkflowState) : WorkflowState :=
  if s.logo.isSome then { s with step := .Animate } else s

/-- The "Next: Animate This Logo" button on the Design screen (rendered
only when a logo is present): `setStep(AppStep.Animate)`. -/
def nextAnimate (s : WorkflowState) : WorkflowState :=
  { s with step := .Animate }

/-- The "Back to Design" button on the Animate screen:
`setStep(AppStep.Design)`. -/
def backToDesign (s : WorkflowState) : WorkflowState :=
  { s with step := .Design }

/-- The "Change Animation" button on the View screen:
`setStep(AppStep.Animate)`. -/
def changeAnimation (s : WorkflowState) : WorkflowState :=
  { s with step := .Animate }

/-- The "Create New" button on the View screen: `setStep(AppStep.Design)`
and nothing else — the logo and animation are not cleared. -/
def createNew (s : WorkflowState) : WorkflowState :=
  { s with step := .Design }

/-- The image-quality select on the Design screen. -/
def setImageSizeOp (s : WorkflowState) (z : ImageSize) : WorkflowState :=
  { s with imageSize := z }

/-- The format select on the Animate screen. -/
def setAspectRatioOp (s : WorkflowState) (r : AspectRatio) : WorkflowState :=
  { s with aspectRatio := r }

/-! ### Reachability

One transition per user-visible affordance, each guarded by the condition
under which `App` renders that affordance.  A handler that awaits a
network call is taken as one atomic transition from invocation to
settlement (the states in between differ only in `isGenerating`, `error`
and `progressMessage`). -/

/-- One controller transition. -/
inductive StepRel : WorkflowState → WorkflowState → Prop
  /-- "Get Started" on the Setup screen runs `checkApiKey`. -/
  | checkKey {s} (hasKeyRes : Except String Bool) (openRes : Except String Unit) :
      s.step = .Setup → StepRel s (checkApiKey s hasKeyRes openRes).1
  /-- "Generate" on the Design screen runs `handleGenerateLogo`. -/
  | genLogo {s} (d : String) (provider : GenRequest → Except String GenContentResponse)
      (ticks : Nat) :
      s.step = .Design → StepRel s (handleGenerateLogo s d provider ticks).1
  /-- "Animate" on the Animate screen (rendered only with a logo) runs
  `handleAnimate`; the transition exists when the handler settles. -/
  | animateSubmit {s r} (p : String) (env : AnimateEnv) (fuel ticks : Nat) :
      s.step = .Animate → s.logo.isSome →
      handleAnimate s p env fuel ticks = some r → StepRel s r.1
  /-- "Designer" in the nav bar. -/
  | navDesigner {s} : StepRel s (navDesigner s)
  /-- "Animator" in the nav bar. -/
  | navAnimator {s} : StepRel s (navAnimator s)
  /-- "Next: Animate This Logo" on the Design screen. -/
  | nextAnimate {s} : s.step = .Design → s.logo.isSome → StepRel s (nextAnimate s)
  /-- "Back to Design" on the Animate screen. -/
  | backToDesign {s} : s.step = .Animate → s.logo.isSome → StepRel s (backToDesign s)
  /-- "Change Animation" on the View screen. -/
  | changeAnimation {s} : s.step = .View → s.animation.isSome →
      StepRel s (changeAnimation s)
  /-- "Create New" on the View screen. -/
  | createNew {s} : s.step = .View → s.animation.isSome → StepRel s (createNew s)
  /-- The quality select on the Design screen. -/
  | setSize {s} (z : ImageSize) : s.step = .Design → StepRel s (setImageSizeOp s z)
  /-- The format select on the Animate screen. -/
  | setRatio {s} (r : AspectRatio) : s.step = .Animate → s.logo.isSome →
      StepRel s (setAspectRatioOp s r)

/-- States reachable from the initial component state. -/
inductive Reachable : WorkflowState → Prop
  | init : Reachable initState
  | step {s s'} : Reachable s → StepRel s s' → Reachable s'

/-! ## Concrete sample environments (used by witnesses) -/

/-- A provider response holding one inline PNG payload. -/
def sampleResponse : GenContentResponse :=
  { parts := some [{ inlineData := some { data := "AAAA", mimeType := some "image/png" } }] }

/-- An image provider that always resolves with `sampleResponse`. -/
def sampleProvider : GenRequest → Except String GenContentResponse :=
  fun _ => .ok sampleResponse

/-- A completed video operation carrying one video with a download URI. -/
def sampleDoneOp : VideosOperation :=
  { done := true
    response := some { generatedVideos := some [{ video := some { uri := some "https://dl" } }] } }

/-- An animation environment whose job is done immediately and whose fetch
succeeds. -/
def sampleAnimEnv : AnimateEnv :=
  { startVideos := fun _ => .ok sampleDoneOp
    pollOp := fun _ => .error "unused"
    fetchUrl := fun _ => .ok { bytes := [1, 2, 3] }
    apiKey := "KEY" }

/-- An animation environment in which every external call rejects. -/
def failingAnimEnv : AnimateEnv :=
  { startVideos := fun _ => .error "boom"
    pollOp := fun _ => .error "boom"
    fetchUrl := fun _ => .error "boom"
    apiKey := "KEY" }

/-- A Design-screen state with no assets yet. -/
def designState : WorkflowState := { initState with step := .Design }

/-! ## Claim theorems -/

/-- **C10.** Manual navigation operations change only `currentStep`: the
"Create New" button (View → Design) and the "Back to Design" button
(Animate → Design) each set the step to Design and leave the logo, the
animation, and every other state field untouched — nothing is cleared. -/
theorem C10_nav_changes_only_step (s : WorkflowState) :
    (createNew s).step = .Design ∧
    (createNew s).logo = s.logo ∧
    (createNew s).animation = s.animation ∧
    (createNew s).isGenerating = s.isGenerating ∧
    (createNew s).error = s.error ∧
    (createNew s).imageSize = s.imageSize ∧
    (createNew s).aspectRatio = s.aspectRatio ∧
    (createNew s).progressMessage = s.progressMessage ∧
    (backToDesign s).step = .Design ∧
    (backToDesign s).logo = s.logo ∧
    (backToDesign s).animation = s.animation ∧
    (backToDesign s).isGenerating = s.isGenerating ∧
    (backToDesign s).error = s.error ∧
    (backToDesign s).imageSize = s.imageSize ∧
    (backToDesign s).aspectRatio = s.aspectRatio ∧
    (backToDesign s).progressMessage = s.progressMessage := by
  simp [createNew, backToDesign]

/-- **C6.** With the logo absent, submitting an animation prompt returns
at once with the state unchanged and an empty event trace (no busy
transition, no error write, no step change, no ticker) — for every
animation environment, so `animateLogo` is never consulted — and the
"Animator" nav-bar button is a no-op. -/
theorem C6_animate_requires_logo (s : WorkflowState) (p : String)
    (env : AnimateEnv) (fuel ticks : Nat) (h : s.logo = none) :
    handleAnimate s p env fuel ticks = some (s, []) ∧ navAnimator s = s := by
  refine ⟨?_, ?_⟩
  · simp [handleAnimate, h]
  · simp [navAnimator, h]

/-- Witness for C6 at the initial state (which has no logo). -/
theorem C6_animate_requires_logo_witness :
    initState.logo = none ∧
    (handleAnimate initState "spin" failingAnimEnv 3 0 = some (initState, []) ∧
      navAnimator initState = initState) :=
  ⟨rfl, C6_animate_requires_logo initState "spin" failingAnimEnv 3 0 rfl⟩

/-- **C5.** On the Setup screen, `checkApiKey` moves `currentStep` to
Design exactly when the key-acquisition check succeeds (the key is
already selected, or interactive selection completes); when the check
fails, it sets `lastError` to the verification-failure message and the
step remains Setup. -/
theorem C5_checkApiKey_setup_to_design (s : WorkflowState)
    (hasKeyRes : Except String Bool) (openRes : Except String Unit)
    (hs : s.step = .Setup) :
    ((checkApiKey s hasKeyRes openRes).1.step = .Design ↔
      keyCheckSucceeds hasKeyRes openRes = true) ∧
    (keyCheckSucceeds hasKeyRes openRes = false →
      (checkApiKey s hasKeyRes openRes).1.step = .Setup ∧
      (checkApiKey s hasKeyRes openRes).1.error = some keyCheckFailMsg) := by
  cases hasKeyRes with
  | ok b =>
    cases b with
    | true => simp [checkApiKey, keyCheckSucceeds]
    | false =>
      cases openRes with
      | ok u => simp [checkApiKey, keyCheckSucceeds]
      | error m => simp [checkApiKey, keyCheckSucceeds, hs]
  | error m => simp [checkApiKey, keyCheckSucceeds, hs]

/-- Witness for C5 at the initial state with a rejecting key check. -/
theorem C5_checkApiKey_setup_to_design_witness :
    initState.step = .Setup ∧
    (((checkApiKey initState (.error "down") (.ok ())).1.step = .Design ↔
        keyCheckSucceeds (.error "down") (.ok ()) = true) ∧
      (keyCheckSucceeds (.error "down") (.ok ()) = false →
        (checkApiKey initState (.error "down") (.ok ())).1.step = .Setup ∧
        (checkApiKey initState (.error "down") (.ok ())).1.error = some keyCheckFailMsg)) :=
  ⟨rfl, C5_checkApiKey_setup_to_design initState (.error "down") (.ok ()) rfl⟩

/-- When no part carries inline data, the extraction loop finds nothing. -/
theorem findInline_eq_none_of_all_none (l : List ResponsePart)
    (h : ∀ part ∈ l, part.inlineData = none) : findInline l = none := by
  induction l with
  | nil => rfl
  | cons p rest ih =>
    have hp : p.inlineData = none := h p (List.mem_cons_self p rest)
    simp only [findInline, hp]
    exact ih fun q hq => h q (List.mem_cons_of_mem p hq)

/-- **C9.** For every description string, every quality tier (carried in
the state), and every provider behaviour: when `generateLogo` succeeds
with result `r`, `handleGenerateLogo` stores
`{ ...r, prompt := description }` as the workflow's logo and the current
step remains Design. -/
theorem C9_success_stores_prompt (s : WorkflowState) (description : String)
    (provider : GenRequest → Except String GenContentResponse) (ticks : Nat)
    (r : LogoResult) (hs : s.step = .Design)
    (hok : generateLogo description s.imageSize provider = .ok r) :
    (handleGenerateLogo s description provider ticks).1.logo =
      some { url := r.url, base64 := r.base64, mimeType := r.mimeType,
             prompt := description } ∧
    (handleGenerateLogo s description provider ticks).1.step = .Design ∧
    (handleGenerateLogo s description provider ticks).1.step = s.step := by
  simp [handleGenerateLogo, hok, hs]

/-- Witness for C9: a concrete provider returning one inline PNG part. -/
theorem C9_success_stores_prompt_witness :
    designState.step = .Design ∧
    generateLogo "blue owl logo" designState.imageSize sampleProvider =
      .ok { url := "data:image/png;base64,AAAA", base64 := "AAAA",
            mimeType := "image/png" } ∧
    ((handleGenerateLogo designState "blue owl logo" sampleProvider 2).1.logo =
      some { url := "data:image/png;base64,AAAA", base64 := "AAAA",
             mimeType := "image/png", prompt := "blue owl logo" } ∧
     (handleGenerateLogo designState "blue owl logo" sampleProvider 2).1.step = .Design ∧
     (handleGenerateLogo designState "blue owl logo" sampleProvider 2).1.step =
       designState.step) :=
  ⟨rfl, rfl, C9_success_stores_prompt designState "blue owl logo" sampleProvider 2 _ rfl rfl⟩

/-- **C4.** When the provider resolves with a response whose first
candidate's parts carry zero inline payloads, `generateLogo` fails with
`noImageReturned`, and the failing `handleGenerateLogo` call leaves the
logo, the current step, the image quality and the frame shape unchanged,
with the busy flag back to `false`. -/
theorem C4_no_inline_payload (s : WorkflowState) (description : String)
    (provider : GenRequest → Except String GenContentResponse) (ticks : Nat)
    (resp : GenContentResponse)
    (hp : provider (mkImageRequest description s.imageSize) = .ok resp)
    (hno : ∀ part ∈ resp.parts.getD [], part.inlineData = none) :
    generateLogo description s.imageSize provider = .error .noImageReturned ∧
    (handleGenerateLogo s description provider ticks).1.logo = s.logo ∧
    (handleGenerateLogo s description provider ticks).1.step = s.step ∧
    (handleGenerateLogo s description provider ticks).1.imageSize = s.imageSize ∧
    (handleGenerateLogo s description provider ticks).1.aspectRatio = s.aspectRatio ∧
    (handleGenerateLogo s description provider ticks).1.isGenerating = false := by
  have hgen : generateLogo description s.imageSize provider = .error .noImageReturned := by
    simp [generateLogo, hp, findInline_eq_none_of_all_none _ hno]
  have hmsg : msgContains "No image data returned from model." entityNotFoundPattern = false := by
    decide
  refine ⟨hgen, ?_⟩
  simp [handleGenerateLogo, hgen, hmsg, GenError.message]

/-- Witness for C4: a provider resolving with an empty parts list. -/
theorem C4_no_inline_payload_witness :
    (fun (_ : GenRequest) => (.ok { parts := some [] } :
        Except String GenContentResponse)) (mkImageRequest "x" designState.imageSize) =
      .ok { parts := some [] } ∧
    (generateLogo "x" designState.imageSize
        (fun _ => .ok { parts := some [] }) = .error .noImageReturned ∧
      (handleGenerateLogo designState "x" (fun _ => .ok { parts := some [] }) 0).1.logo =
        designState.logo ∧
      (handleGenerateLogo designState "x" (fun _ => .ok { parts := some [] }) 0).1.step =
        designState.step ∧
      (handleGenerateLogo designState "x" (fun _ => .ok { parts := some [] }) 0).1.imageSize =
        designState.imageSize ∧
      (handleGenerateLogo designState "x" (fun _ => .ok { parts := some [] }) 0).1.aspectRatio =
        designState.aspectRatio ∧
      (handleGenerateLogo designState "x" (fun _ => .ok { parts := some [] }) 0).1.isGenerating =
        false) :=
  ⟨rfl, C4_no_inline_payload designState "x" (fun _ => .ok { parts := some [] }) 0
    { parts := some [] } rfl (by simp)⟩

/-- Selector for the events the busy/ticker discipline is about. -/
def busyTickerEv : Ev → Bool
  | .setBusy _ => true
  | .startTicker _ => true
  | .stopTicker => true
  | .setErr _ => false
  | .openKey => false

/-- **C2.** Every `handleGenerateLogo` call, and every `handleAnimate`
call that starts an operation (logo present) and settles, produces
exactly the busy/ticker event sequence
`setBusy true, startTicker, stopTicker, setBusy false`: the busy flag
goes true then back to false exactly once, whether the underlying call
succeeds or fails, and the ticker started with the call is stopped at
that same settlement point, just before busy drops. -/
theorem C2_busy_and_ticker_discipline :
    (∀ s d provider ticks,
      (handleGenerateLogo s d provider ticks).2.filter busyTickerEv =
        [.setBusy true, .startTicker 3000, .stopTicker, .setBusy false]) ∧
    (∀ s p env fuel ticks s' t, s.logo.isSome = true →
      handleAnimate s p env fuel ticks = some (s', t) →
      t.filter busyTickerEv =
        [.setBusy true, .startTicker 4000, .stopTicker, .setBusy false]) := by
  constructor
  · intro s d provider ticks
    cases hg : generateLogo d s.imageSize provider with
    | ok r => simp [handleGenerateLogo, hg, busyTickerEv]
    | error e =>
      by_cases hm : msgContains e.message entityNotFoundPattern = true
      · simp [handleGenerateLogo, hg, hm, busyTickerEv]
      · simp only [Bool.not_eq_true] at hm
        simp [handleGenerateLogo, hg, hm, busyTickerEv]
  · intro s p env fuel ticks s' t hlogo heq
    obtain ⟨l, hl⟩ := Option.isSome_iff_exists.mp hlogo
    cases ha : animateLogo { base64 := l.base64, mimeType := l.mimeType }
        p s.aspectRatio env fuel with
    | none => simp [handleAnimate, hl, ha] at heq
    | some res =>
      cases res with
      | ok v =>
        simp [handleAnimate, hl, ha] at heq
        rw [← heq.2]
        simp [busyTickerEv]
      | error e =>
        by_cases hm : msgContains e.message entityNotFoundPattern = true
        · simp [handleAnimate, hl, ha, hm] at heq
          rw [← heq.2]
          simp [busyTickerEv]
        · simp only [Bool.not_eq_true] at hm
          simp [handleAnimate, hl, ha, hm] at heq
          rw [← heq.2]
          simp [busyTickerEv]

/-- Witness for C2: the logo flow with the sample provider, and the
animation flow (from a state holding a logo) with the immediately-done
sample environment. -/
theorem C2_busy_and_ticker_discipline_witness :
    (handleGenerateLogo designState "d" sampleProvider 0).2.filter busyTickerEv =
      [.setBusy true, .startTicker 3000, .stopTicker, .setBusy false] ∧
    [Ev.setBusy true, Ev.setErr none, Ev.startTicker 4000, Ev.stopTicker,
        Ev.setBusy false].filter busyTickerEv =
      [.setBusy true, .startTicker 4000, .stopTicker, .setBusy false] := by
  constructor
  · exact C2_busy_and_ticker_discipline.1 designState "d" sampleProvider 0
  · exact C2_busy_and_ticker_discipline.2
      { designState with logo := some { url := "u", base64 := "AAAA",
                                        mimeType := "image/png", prompt := "p" }
                         step := .Animate }
      "pages turn slowly" sampleAnimEnv 1 0 _ _ rfl rfl

/-- A provider whose call rejects with the entity-not-found message. -/
def entityFailProvider : GenRequest → Except String GenContentResponse :=
  fun _ => .error "Requested entity was not found"

/-- **C7.** In both the logo flow and the animation flow: when the
underlying generation call fails with a message containing
"Requested entity was not found", the handler sets `lastError` to the
access-recovery message and emits `openKey` (the credential-selection
collaborator) exactly once, before `setBusy false` — the full event trace
is pinned.  When the call fails with any other message, or succeeds, no
`openKey` event is emitted at all. -/
theorem C7_access_denied_reselects_key :
    (∀ s d provider ticks e,
      generateLogo d s.imageSize provider = .error e →
      (msgContains e.message entityNotFoundPattern = true →
        (handleGenerateLogo s d provider ticks).1.error = some accessRecoveryMsg ∧
        (handleGenerateLogo s d provider ticks).2 =
          [.setBusy true, .setErr none, .startTicker 3000,
           .setErr (some accessRecoveryMsg), .openKey, .stopTicker, .setBusy false]) ∧
      (msgContains e.message entityNotFoundPattern = false →
        Ev.openKey ∉ (handleGenerateLogo s d provider ticks).2)) ∧
    (∀ s d provider ticks r,
      generateLogo d s.imageSize provider = .ok r →
      Ev.openKey ∉ (handleGenerateLogo s d provider ticks).2) ∧
    (∀ s p env fuel ticks l e,
      s.logo = some l →
      animateLogo { base64 := l.base64, mimeType := l.mimeType } p s.aspectRatio env fuel =
        some (.error e) →
      (msgContains e.message entityNotFoundPattern = true →
        ∃ s', handleAnimate s p env fuel ticks =
          some (s', [.setBusy true, .setErr none, .startTicker 4000,
                     .setErr (some accessRecoveryMsg), .openKey, .stopTicker,
                     .setBusy false]) ∧
          s'.error = some accessRecoveryMsg) ∧
      (msgContains e.message entityNotFoundPattern = false →
        ∀ s' t, handleAnimate s p env fuel ticks = some (s', t) →
          Ev.openKey ∉ t)) ∧
    (∀ s p env fuel ticks l v,
      s.logo = some l →
      animateLogo { base64 := l.base64, mimeType := l.mimeType } p s.aspectRatio env fuel =
        some (.ok v) →
      ∀ s' t, handleAnimate s p env fuel ticks = some (s', t) →
        Ev.openKey ∉ t) := by
  refine ⟨?_, ?_, ?_, ?_⟩
  · intro s d provider ticks e hg
    constructor
    · intro hm
      simp [handleGenerateLogo, hg, hm]
    · intro hm
      simp [handleGenerateLogo, hg, hm]
  · intro s d provider ticks r hg
    simp [handleGenerateLogo, hg]
  · intro s p env fuel ticks l e hl ha
    constructor
    · intro hm
      have hset : handleAnimate s p env fuel ticks =
          some ({ s with isGenerating := false
                         error := some accessRecoveryMsg
                         progressMessage :=
                           tickerMessage animationMessages ticks s.progressMessage },
                [.setBusy true, .setErr none, .startTicker 4000,
                 .setErr (some accessRecoveryMsg), .openKey, .stopTicker,
                 .setBusy false]) := by
        simp [handleAnimate, hl, ha, hm]
      exact ⟨_, hset, rfl⟩
    · intro hm s' t heq
      simp [handleAnimate, hl, ha, hm] at heq
      rw [← heq.2]
      simp
  · intro s p env fuel ticks l v hl ha s' t heq
    simp [handleAnimate, hl, ha] at heq
    rw [← heq.2]
    simp

/-- Witness for C7: the logo flow with a provider that rejects with the
entity-not-found message. -/
theorem C7_access_denied_reselects_key_witness :
    generateLogo "d" designState.imageSize entityFailProvider =
      .error (.providerError "Requested entity was not found") ∧
    msgContains (GenError.message (.providerError "Requested entity was not found"))
      entityNotFoundPattern = true ∧
    ((handleGenerateLogo designState "d" entityFailProvider 0).1.error =
        some accessRecoveryMsg ∧
      (handleGenerateLogo designState "d" entityFailProvider 0).2 =
        [.setBusy true, .setErr none, .startTicker 3000,
         .setErr (some accessRecoveryMsg), .openKey, .stopTicker, .setBusy false]) :=
  ⟨rfl, by decide,
    (C7_access_denied_reselects_key.1 designState "d" entityFailProvider 0
      (.providerError "Requested entity was not found") rfl).1 (by decide)⟩

/-! ## The poll loop of `animateLogo` -/

/-- The operation value the loop holds before its `i`-th status check:
the initial handle for `i = 0`, afterwards the resolution of the
`(i-1)`-th `getVideosOperation` call. -/
def opAt (op0 : VideosOperation) (ops : Nat → VideosOperation) : Nat → VideosOperation
  | 0 => op0
  | n + 1 => ops n

/-- Sleeps accumulated by the loop are all the fixed 10-second interval. -/
theorem pollLoopFuel_sleeps_const (poll : Nat → Except String VideosOperation) :
    ∀ fuel op i sleeps op' sl,
      pollLoopFuel fuel op poll i sleeps = some (.ok (op', sl)) →
      (∀ x ∈ sleeps, x = pollIntervalMs) → ∀ x ∈ sl, x = pollIntervalMs := by
  intro fuel
  induction fuel with
  | zero =>
    intro op i sleeps op' sl h hall
    rw [pollLoopFuel] at h
    by_cases hd : op.done = true
    · simp [hd] at h
      rw [← h.2]
      exact hall
    · simp [hd] at h
  | succ f ih =>
    intro op i sleeps op' sl h hall
    rw [pollLoopFuel] at h
    by_cases hd : op.done = true
    · simp [hd] at h
      rw [← h.2]
      exact hall
    · simp [hd] at h
      cases hp : poll i with
      | error m => rw [hp] at h; simp at h
      | ok op2 =>
        rw [hp] at h
        refine ih op2 (i + 1) (sleeps ++ [pollIntervalMs]) op' sl h ?_
        intro x hx
        rcases List.mem_append.mp hx with hx | hx
        · exact hall x hx
        · simpa using hx

/-- If the operation is reported done `d` checks from now, the loop exits
within fuel `d` on a done operation. -/
theorem pollLoopFuel_exits (op0 : VideosOperation) (ops : Nat → VideosOperation)
    (poll : Nat → Except String VideosOperation)
    (hpoll : ∀ n, poll n = .ok (ops n)) :
    ∀ d i sleeps, (opAt op0 ops (i + d)).done = true →
      ∃ op sl, pollLoopFuel d (opAt op0 ops i) poll i sleeps = some (.ok (op, sl)) ∧
        op.done = true := by
  intro d
  induction d with
  | zero =>
    intro i sleeps h
    rw [pollLoopFuel]
    simp only [Nat.add_zero] at h
    simp [h]
  | succ d ih =>
    intro i sleeps h
    by_cases hd : (opAt op0 ops i).done = true
    · rw [pollLoopFuel]
      simp [hd]
    · rw [pollLoopFuel]
      simp only [hd]
      rw [hpoll i]
      simp only [Bool.false_eq_true, if_false]
      have hstep : ops i = opAt op0 ops (i + 1) := rfl
      rw [hstep]
      have hnext : (opAt op0 ops ((i + 1) + d)).done = true := by
        have : (i + 1) + d = i + (d + 1) := by omega
        rw [this]
        exact h
      exact ih (i + 1) (sleeps ++ [pollIntervalMs]) hnext

/-- If no check ever reports done, the loop never exits, at any fuel. -/
theorem pollLoopFuel_never_exits (op0 : VideosOperation) (ops : Nat → VideosOperation)
    (poll : Nat → Except String VideosOperation)
    (hpoll : ∀ n, poll n = .ok (ops n))
    (hnever : ∀ n, (opAt op0 ops n).done = false) :
    ∀ fuel i sleeps, pollLoopFuel fuel (opAt op0 ops i) poll i sleeps = none := by
  intro fuel
  induction fuel with
  | zero =>
    intro i sleeps
    rw [pollLoopFuel]
    simp [hnever i]
  | succ f ih =>
    intro i sleeps
    rw [pollLoopFuel]
    simp only [hnever i, Bool.false_eq_true, if_false]
    rw [hpoll i]
    exact ih (i + 1) (sleeps ++ [pollIntervalMs])

/-- **C3.** The poll loop of `animateLogo` sleeps a constant 10-second
interval between status checks, with no backoff (every recorded sleep
equals `pollIntervalMs`), and has no iteration bound or timeout: whenever
the provider eventually reports the operation done, the loop exits on a
done operation within the corresponding fuel and `animateLogo` proceeds
to the download-reference extraction (`finishAnimation`); whenever the
provider never reports done, the loop never exits at any fuel. -/
theorem C3_poll_loop_behaviour (op0 : VideosOperation)
    (ops : Nat → VideosOperation) (poll : Nat → Except String VideosOperation)
    (hpoll : ∀ n, poll n = .ok (ops n)) :
    (∀ fuel op sl, pollLoopFuel fuel op0 poll 0 [] = some (.ok (op, sl)) →
      ∀ x ∈ sl, x = pollIntervalMs) ∧
    ((∃ n, (opAt op0 ops n).done = true) →
      ∃ fuel op sl, pollLoopFuel fuel op0 poll 0 [] = some (.ok (op, sl)) ∧
        op.done = true ∧
        ∀ image p ar fetchUrl apiKey,
          animateLogo image p ar
            { startVideos := fun _ => .ok op0, pollOp := poll,
              fetchUrl := fetchUrl, apiKey := apiKey } fuel =
            some (finishAnimation op fetchUrl apiKey)) ∧
    ((∀ n, (opAt op0 ops n).done = false) →
      ∀ fuel, pollLoopFuel fuel op0 poll 0 [] = none) := by
  refine ⟨?_, ?_, ?_⟩
  · intro fuel op sl h
    exact pollLoopFuel_sleeps_const poll fuel op0 0 [] op sl h (by simp)
  · rintro ⟨n, hn⟩
    have h0 : (opAt op0 ops (0 + n)).done = true := by simpa using hn
    obtain ⟨op, sl, hloop, hdone⟩ :=
      pollLoopFuel_exits op0 ops poll hpoll n 0 [] h0
    have hloop0 : pollLoopFuel n op0 poll 0 [] = some (.ok (op, sl)) := hloop
    refine ⟨n, op, sl, hloop0, hdone, ?_⟩
    intro image p ar fetchUrl apiKey
    simp [animateLogo, hloop0]
  · intro hnever fuel
    exact pollLoopFuel_never_exits op0 ops poll hpoll hnever fuel 0 []

/-- A pending operation handle with no payload yet. -/
def pendingOp : VideosOperation := { done := false, response := none }

/-- A poll trace whose every status check resolves with the done sample
operation. -/
def donePollOps : Nat → VideosOperation := fun _ => sampleDoneOp

/-- The oracle form of `donePollOps`. -/
def donePoll : Nat → Except String VideosOperation := fun _ => .ok sampleDoneOp

/-- Witness for C3: a trace whose first status check reports done. -/
theorem C3_poll_loop_behaviour_witness :
    (∀ n, donePoll n = .ok (donePollOps n)) ∧
    ((∃ n, (opAt pendingOp donePollOps n).done = true) →
      ∃ fuel op sl,
        pollLoopFuel fuel pendingOp donePoll 0 [] = some (.ok (op, sl)) ∧
        op.done = true ∧
        ∀ image p ar fetchUrl apiKey,
          animateLogo image p ar
            { startVideos := fun _ => .ok pendingOp, pollOp := donePoll,
              fetchUrl := fetchUrl, apiKey := apiKey } fuel =
            some (finishAnimation op fetchUrl apiKey)) ∧
    (∃ n, (opAt pendingOp donePollOps n).done = true) := by
  refine ⟨fun n => rfl, ?_, ⟨1, rfl⟩⟩
  exact (C3_poll_loop_behaviour pendingOp donePollOps donePoll (fun n => rfl)).2.1

/-- **C8.** Once the video operation has completed (the poll loop exited
on operation `opF`), `animateLogo` fails with `noVideoReturned` when the
first generated video's download URI is absent; fails with
`downloadFailed` when fetching the binary content at that URI (with the
API key appended) rejects; and otherwise returns an object URL wrapping
exactly the fetched blob. -/
theorem C8_post_completion_outcomes (image : ImagePayload) (p : String)
    (ar : AspectRatio) (env : AnimateEnv) (fuel : Nat)
    (op0 opF : VideosOperation) (sl : List Nat)
    (hstart : env.startVideos (mkVideoRequest image p ar) = .ok op0)
    (hloop : pollLoopFuel fuel op0 env.pollOp 0 [] = some (.ok (opF, sl))) :
    (downloadLinkOf opF = none →
      animateLogo image p ar env fuel = some (.error .noVideoReturned)) ∧
    (∀ link m, downloadLinkOf opF = some link →
      env.fetchUrl (link ++ "&key=" ++ env.apiKey) = .error m →
      animateLogo image p ar env fuel = some (.error (.downloadFailed m))) ∧
    (∀ link b, downloadLinkOf opF = some link →
      env.fetchUrl (link ++ "&key=" ++ env.apiKey) = .ok b →
      animateLogo image p ar env fuel = some (.ok (.objectURL b))) := by
  refine ⟨?_, ?_, ?_⟩
  · intro hnone
    simp [animateLogo, hstart, hloop, finishAnimation, hnone]
  · intro link m hlink hfetch
    simp [animateLogo, hstart, hloop, finishAnimation, hlink, hfetch]
  · intro link b hlink hfetch
    simp [animateLogo, hstart, hloop, finishAnimation, hlink, hfetch]

/-- Witness for C8: the sample environment, whose operation is done at
once with a present URI and whose fetch succeeds. -/
theorem C8_post_completion_outcomes_witness :
    sampleAnimEnv.startVideos
        (mkVideoRequest { base64 := "AAAA", mimeType := "image/png" } "spin" .ratio16x9) =
      .ok sampleDoneOp ∧
    pollLoopFuel 1 sampleDoneOp sampleAnimEnv.pollOp 0 [] = some (.ok (sampleDoneOp, [])) ∧
    downloadLinkOf sampleDoneOp = some "https://dl" ∧
    sampleAnimEnv.fetchUrl ("https://dl" ++ "&key=" ++ sampleAnimEnv.apiKey) =
      .ok { bytes := [1, 2, 3] } ∧
    animateLogo { base64 := "AAAA", mimeType := "image/png" } "spin" .ratio16x9
        sampleAnimEnv 1 =
      some (.ok (.objectURL { bytes := [1, 2, 3] })) := by
  refine ⟨rfl, rfl, rfl, rfl, ?_⟩
  exact (C8_post_completion_outcomes { base64 := "AAAA", mimeType := "image/png" }
    "spin" .ratio16x9 sampleAnimEnv 1 sampleDoneOp sampleDoneOp [] rfl rfl).2.2
    "https://dl" { bytes := [1, 2, 3] } rfl rfl

/-! ## The reachable-state invariant -/

/-- Frame facts of `checkApiKey`: it never touches the logo or the
animation, and either sets the step to Design or leaves it alone. -/
theorem checkApiKey_frame (s : WorkflowState) (hasKeyRes : Except String Bool)
    (openRes : Except String Unit) :
    (checkApiKey s hasKeyRes openRes).1.logo = s.logo ∧
    (checkApiKey s hasKeyRes openRes).1.animation = s.animation ∧
    ((checkApiKey s hasKeyRes openRes).1.step = .Design ∨
      (checkApiKey s hasKeyRes openRes).1.step = s.step) := by
  cases hasKeyRes with
  | ok b => cases b <;> cases openRes <;> simp [checkApiKey]
  | error m => simp [checkApiKey]

/-- Frame facts of `handleGenerateLogo`: the animation is never touched,
the logo is either untouched or freshly populated, and the step is either
set to Design or untouched. -/
theorem handleGenerateLogo_frame (s : WorkflowState) (d : String)
    (provider : GenRequest → Except String GenContentResponse) (ticks : Nat) :
    (handleGenerateLogo s d provider ticks).1.animation = s.animation ∧
    ((handleGenerateLogo s d provider ticks).1.logo = s.logo ∨
      ((handleGenerateLogo s d provider ticks).1.logo).isSome = true) ∧
    ((handleGenerateLogo s d provider ticks).1.step = .Design ∨
      (handleGenerateLogo s d provider ticks).1.step = s.step) := by
  cases hg : generateLogo d s.imageSize provider with
  | ok r => simp [handleGenerateLogo, hg]
  | error e =>
    by_cases hm : msgContains e.message entityNotFoundPattern = true
    · simp [handleGenerateLogo, hg, hm]
    · simp only [Bool.not_eq_true] at hm
      simp [handleGenerateLogo, hg, hm]

/-- Frame facts of a settled `handleAnimate`: the logo is never touched,
and either both step and animation are untouched, or the step is View and
the animation freshly populated. -/
theorem handleAnimate_frame (s : WorkflowState) (p : String) (env : AnimateEnv)
    (fuel ticks : Nat) (s' : WorkflowState) (t : List Ev)
    (h : handleAnimate s p env fuel ticks = some (s', t)) :
    s'.logo = s.logo ∧
    ((s'.step = s.step ∧ s'.animation = s.animation) ∨
      (s'.step = .View ∧ s'.animation.isSome = true)) := by
  cases hl : s.logo with
  | none =>
    simp [handleAnimate, hl] at h
    obtain ⟨h1, h2⟩ := h
    subst h1
    simp [hl]
  | some l =>
    cases ha : animateLogo { base64 := l.base64, mimeType := l.mimeType }
        p s.aspectRatio env fuel with
    | none => simp [handleAnimate, hl, ha] at h
    | some res =>
      cases res with
      | ok v =>
        simp [handleAnimate, hl, ha] at h
        rw [← h.1]
        simp [hl]
      | error e =>
        by_cases hm : msgContains e.message entityNotFoundPattern = true
        · simp [handleAnimate, hl, ha, hm] at h
          rw [← h.1]
          simp [hl]
        · simp only [Bool.not_eq_true] at hm
          simp [handleAnimate, hl, ha, hm] at h
          rw [← h.1]
          simp [hl]

/-- Every controller transition preserves the asset/step invariant. -/
theorem stepRel_preserves_inv {s s' : WorkflowState} (h : StepRel s s')
    (ih : (s.animation.isSome = true → s.logo.isSome = true) ∧
      ((s.step = .Animate ∨ s.step = .View) → s.logo.isSome = true) ∧
      (s.step = .View → s.animation.isSome = true)) :
    (s'.animation.isSome = true → s'.logo.isSome = true) ∧
    ((s'.step = .Animate ∨ s'.step = .View) → s'.logo.isSome = true) ∧
    (s'.step = .View → s'.animation.isSome = true) := by
  obtain ⟨ihA, ihB, ihC⟩ := ih
  cases h with
  | checkKey hasKeyRes openRes hs =>
    obtain ⟨hL, hA, hS⟩ := checkApiKey_frame s hasKeyRes openRes
    refine ⟨?_, ?_, ?_⟩
    · intro ha
      rw [hA] at ha
      rw [hL]
      exact ihA ha
    · intro hstep
      rcases hS with hS | hS <;> rw [hS] at hstep
      · rcases hstep with h | h <;> simp at h
      · rw [hs] at hstep
        rcases hstep with h | h <;> simp at h
    · intro hstep
      rcases hS with hS | hS <;> rw [hS] at hstep
      · simp at hstep
      · rw [hs] at hstep
        simp at hstep
  | genLogo d provider ticks hs =>
    obtain ⟨hA, hL, hS⟩ := handleGenerateLogo_frame s d provider ticks
    refine ⟨?_, ?_, ?_⟩
    · intro ha
      rw [hA] at ha
      rcases hL with hL | hL
      · rw [hL]
        exact ihA ha
      · exact hL
    · intro hstep
      rcases hS with hS | hS <;> rw [hS] at hstep
      · rcases hstep with h | h <;> simp at h
      · rw [hs] at hstep
        rcases hstep with h | h <;> simp at h
    · intro hstep
      rcases hS with hS | hS <;> rw [hS] at hstep
      · simp at hstep
      · rw [hs] at hstep
        simp at hstep
  | animateSubmit p env fuel ticks hs hl heq =>
    obtain ⟨hL, hD⟩ := handleAnimate_frame s p env fuel ticks _ _ heq
    refine ⟨?_, ?_, ?_⟩
    · intro _
      rw [hL]
      exact hl
    · intro _
      rw [hL]
      exact hl
    · intro hstep
      rcases hD with ⟨hstep', _⟩ | ⟨_, hsome⟩
      · rw [hstep, hs] at hstep'
        simp at hstep'
      · exact hsome
  | navDesigner =>
    exact ⟨by simpa [navDesigner] using ihA, by simp [navDesigner], by simp [navDesigner]⟩
  | navAnimator =>
    by_cases hl : s.logo.isSome = true
    · refine ⟨?_, ?_, ?_⟩ <;> simp [navAnimator, hl]
    · simp only [Bool.not_eq_true] at hl
      have hid : navAnimator s = s := by simp [navAnimator, hl]
      rw [hid]
      exact ⟨ihA, ihB, ihC⟩
  | nextAnimate hs hl =>
    refine ⟨?_, ?_, ?_⟩ <;> simp [nextAnimate, hl]
  | backToDesign hs hl =>
    exact ⟨by simpa [backToDesign] using ihA, by simp [backToDesign], by simp [backToDesign]⟩
  | changeAnimation hs ha =>
    refine ⟨?_, ?_, ?_⟩ <;> simp [changeAnimation, ihA ha]
  | createNew hs ha =>
    exact ⟨by simpa [createNew] using ihA, by simp [createNew], by simp [createNew]⟩
  | setSize z hs =>
    exact ⟨by simpa [setImageSizeOp] using ihA, by simpa [setImageSizeOp] using ihB,
      by simpa [setImageSizeOp] using ihC⟩
  | setRatio r hs hl =>
    exact ⟨by simpa [setAspectRatioOp] using ihA, by simpa [setAspectRatioOp] using ihB,
      by simpa [setAspectRatioOp] using ihC⟩

/-- **C1.** In every reachable `WorkflowState`: a populated animation
implies a populated logo; a current step of Animate or View implies a
populated logo; and a current step of View implies a populated
animation. -/
theorem C1_reachable_state_invariant (s : WorkflowState) (h : Reachable s) :
    (s.animation.isSome = true → s.logo.isSome = true) ∧
    ((s.step = .Animate ∨ s.step = .View) → s.logo.isSome = true) ∧
    (s.step = .View → s.animation.isSome = true) := by
  induction h with
  | init => refine ⟨?_, ?_, ?_⟩ <;> simp [initState]
  | step _ hstep ih => exact stepRel_preserves_inv hstep ih

/-- The logo produced along the witness run for C1. -/
def runLogo : LogoData :=
  { url := "data:image/png;base64,AAAA", base64 := "AAAA", mimeType := "image/png",
    prompt := "blue owl logo" }

/-- Witness run, after the key check: the Design screen. -/
def runState1 : WorkflowState := { initState with step := .Design }

/-- Witness run, after a successful logo generation. -/
def runState2 : WorkflowState := { initState with step := .Design, logo := some runLogo }

/-- Witness run, after navigating to the Animate screen. -/
def runState3 : WorkflowState := { initState with step := .Animate, logo := some runLogo }

/-- Witness run, after a successful animation: the View screen with both
assets populated. -/
def runState4 : WorkflowState :=
  { initState with
      step := .View
      logo := some runLogo
      animation := some { videoUrl := .objectURL { bytes := [1, 2, 3] }, prompt := "spin" } }

/-- Witness for C1 at a genuinely interesting reachable state: a full run
(key check, logo generation, navigation, animation) ending on the View
screen with both assets populated, where all three implications have true
antecedents. -/
theorem C1_reachable_state_invariant_witness :
    (runState4.animation.isSome = true → runState4.logo.isSome = true) ∧
    ((runState4.step = .Animate ∨ runState4.step = .View) → runState4.logo.isSome = true) ∧
    (runState4.step = .View → runState4.animation.isSome = true) := by
  apply C1_reachable_state_invariant
  have h0 : Reachable initState := .init
  have h1 : Reachable runState1 := h0.step (StepRel.checkKey (.ok true) (.ok ()) rfl)
  have h2 : Reachable runState2 :=
    h1.step (StepRel.genLogo "blue owl logo" sampleProvider 0 rfl)
  have h3 : Reachable runState3 := h2.step StepRel.navAnimator
  have hsub : StepRel runState3 runState4 := by
    have heq : handleAnimate runState3 "spin" sampleAnimEnv 1 0 =
        some (runState4, [.setBusy true, .setErr none, .startTicker 4000,
                          .stopTicker, .setBusy false]) := rfl
    exact StepRel.animateSubmit "spin" sampleAnimEnv 1 0
      (rfl : runState3.step = .Animate) (rfl : runState3.logo.isSome = true) heq
  exact h3.step hsub

end Logogen
